import Mathlib

/-!
Verification of the sensor-footprint projection and accumulation engine
(`createIntersectionPolygon` and the cone-orientation resolvers) of the
cesium-entity-cast repository, as a shallow embedding in Lean 4.

Modelling conventions:

* Scalars are exact rationals (`ℚ`); the JS code computes with floats, but every
  claim checked here is about control flow, state evolution and order
  comparisons, which the rational model represents exactly.
* 3-D points (`Cesium.Cartesian3`) are `Pt`, triples of rationals.
* The external collaborators (Cesium math primitives, the ellipsoid ray
  intersector, the turf polygon library) are bundled in a `GeoEnv` record of
  function parameters.  Fallible turf operations (`turf.polygon`, `turf.union`,
  `turf.simplify`) return `Option Feature`, `none` meaning the call throws.
  The feature payload itself is opaque to the engine, so `Feature` is a token
  type.
* The float comparison `Cesium.Cartesian3.distance(p, q) <= r` is embedded as
  `0 ≤ r ∧ distSq p q ≤ r * r`, and `distance(p, q) > 100` as
  `100 * 100 < distSq p q`; both rewritings are exact for the real square
  root, since the distance is non-negative.
* A "tick" is one invocation of the `CallbackProperty` evaluation body; the JS
  `try`/`catch` around the turf calls makes that body total, which the model
  mirrors by `tickUtils` being a total function (the cast.js variant, whose
  `turf.polygon` call sits outside the `try`, instead returns
  `Option TickResult`, `none` meaning the exception escapes the callback).
-/

/-- A 3-D Cartesian point (`Cesium.Cartesian3`). -/
structure Pt where
  x : ℚ
  y : ℚ
  z : ℚ
deriving DecidableEq, Repr

/-- Squared Euclidean distance between two points. -/
def distSq (p q : Pt) : ℚ :=
  (p.x - q.x) * (p.x - q.x) + (p.y - q.y) * (p.y - q.y) + (p.z - q.z) * (p.z - q.z)

/-- Componentwise sum (`Cesium.Cartesian3.add`). -/
def addPt (p q : Pt) : Pt := ⟨p.x + q.x, p.y + q.y, p.z + q.z⟩

/-- Scalar multiple (`Cesium.Cartesian3.multiplyByScalar`). -/
def smulPt (s : ℚ) (p : Pt) : Pt := ⟨s * p.x, s * p.y, s * p.z⟩

/-- Opaque token for a turf GeoJSON feature; the engine never inspects the
payload of `accumulatedGeoJSON` in the code paths verified here. -/
abbrev Feature := ℕ

/-- The external collaborators of the engine: Cesium scalar/vector math,
the ellipsoid ray intersector, cartographic conversions, and the turf
polygon operations.  A `none` result of `polygon`, `union` or `simplify`
models the library call throwing. -/
structure GeoEnv where
  toRadians : ℚ → ℚ
  toDegrees : ℚ → ℚ
  cos : ℚ → ℚ
  sin : ℚ → ℚ
  normalizeDir : Pt → Pt
  rayEllipsoid : Pt → Pt → Option ℚ
  toCartographic : Pt → ℚ × ℚ
  fromRadians : ℚ → ℚ → ℚ → Pt
  polygon : List (ℚ × ℚ) → Option Feature
  union : Feature → Feature → Option Feature
  simplify : Feature → Option Feature

/-- One angular sample of the ray-casting loop (utils.js lines 168-199):
theta_i = toRadians(i*5); radial = tanHalfAngle*(cos theta * tangent +
sin theta * bitangent); rayDir = normalize(axis + radial); intersect the ray
from the apex with the ellipsoid; if it hits, accept the hit point iff its
chord distance to the ground center is at most the region radius. -/
def samplePoint (env : GeoEnv) (apexPos axis tangent bitangent : Pt)
    (tanHalfAngle : ℚ) (groundPos : Pt) (radius : ℚ) (i : ℕ) : Option Pt :=
  let theta := env.toRadians ((i : ℚ) * 5)
  let radial := smulPt tanHalfAngle
    (addPt (smulPt (env.cos theta) tangent) (smulPt (env.sin theta) bitangent))
  let rayDir := env.normalizeDir (addPt axis radial)
  match env.rayEllipsoid apexPos rayDir with
  | none => none
  | some d =>
    let point := addPt apexPos (smulPt d rayDir)
    if 0 ≤ radius ∧ distSq point groundPos ≤ radius * radius then some point else none

/-- The Instantaneous Footprint: the accepted sample points of the 72
angular samples, in sample order (the `intersectionPoints` array). -/
def instantFootprint (env : GeoEnv) (apexPos axis tangent bitangent : Pt)
    (tanHalfAngle : ℚ) (groundPos : Pt) (radius : ℚ) : List Pt :=
  (List.range 72).filterMap
    (samplePoint env apexPos axis tangent bitangent tanHalfAngle groundPos radius)

/-- The footprint centroid (utils.js lines 203-215): arithmetic mean of the
accepted points' longitude/latitude in radians, sent back to a Cartesian
point at height 0. -/
def centroid (env : GeoEnv) (pts : List Pt) : Pt :=
  let cartos := pts.map env.toCartographic
  let sumLon := (cartos.map Prod.fst).sum
  let sumLat := (cartos.map Prod.snd).sum
  env.fromRadians (sumLon / (pts.length : ℚ)) (sumLat / (pts.length : ℚ)) 0

/-- The displacement gate (utils.js line 219):
`!lastFootprintPos || Cesium.Cartesian3.distance(center, lastFootprintPos) > 100`. -/
def qualDist (center : Pt) (last : Option Pt) : Bool :=
  match last with
  | none => true
  | some p => decide (100 * 100 < distSq center p)

/-- The degree coordinates of the footprint ring (utils.js lines 223-226). -/
def ringCoords (env : GeoEnv) (pts : List Pt) : List (ℚ × ℚ) :=
  pts.map fun p =>
    let c := env.toCartographic p
    (env.toDegrees c.1, env.toDegrees c.2)

/-- The explicitly closed ring: the coordinates with the first point pushed
again at the end (utils.js line 230). -/
def closedRing (env : GeoEnv) (pts : List Pt) : List (ℚ × ℚ) :=
  ringCoords env pts ++ [(ringCoords env pts).headI]

/-- The `try` block of utils.js lines 232-248: construct the turf polygon,
seed or union the accumulated GeoJSON, then simplify.  Returns the new
accumulated value and whether a warning was logged (the `catch`).  Each JS
assignment happens only after its right-hand side returned, so a throwing
`union` leaves the accumulated value unchanged while a throwing `simplify`
leaves it at the already-assigned union result. -/
def tryAccumulate (env : GeoEnv) (ring : List (ℚ × ℚ)) (acc : Option Feature) :
    Option Feature × Bool :=
  match env.polygon ring with
  | none => (acc, true)
  | some poly =>
    match acc with
    | none => (some poly, false)
    | some a =>
      match env.union a poly with
      | none => (some a, true)
      | some u =>
        match env.simplify u with
        | none => (some u, true)
        | some s => (some s, false)

/-- The trajectory push (utils.js lines 254-256): append the centroid, then
shift the oldest entry out when the length exceeds 200. -/
def pushBounded (scan : List Pt) (c : Pt) : List Pt :=
  let s := scan ++ [c]
  if s.length > 200 then s.tail else s

/-- The observable outcome of one evaluation tick. -/
structure TickResult where
  last : Option Pt
  acc : Option Feature
  scan : List Pt
  ring : List Pt
  warned : Bool
deriving DecidableEq, Repr

/-- One evaluation tick of the accumulator in `src/lib/cesium/utils.js`
(lines 201-258), for one cone: given the accepted intersection points, the
cone's `lastFootprintPos`, the shared `accumulatedGeoJSON` and the shared
`scanPositions`, produce the updated state, the hierarchy ring returned for
rendering, and the warning flag.  All turf calls sit inside the `try`, so
the tick is total: no exception crosses the evaluation boundary. -/
def tickUtils (env : GeoEnv) (pts : List Pt) (last : Option Pt)
    (acc : Option Feature) (scan : List Pt) : TickResult :=
  if pts.isEmpty then ⟨last, acc, scan, pts, false⟩
  else
    let center := centroid env pts
    if qualDist center last then
      if 3 ≤ (ringCoords env pts).length then
        let p := tryAccumulate env (closedRing env pts) acc
        ⟨some center, p.1, pushBounded scan center, pts, p.2⟩
      else
        ⟨some center, acc, pushBounded scan center, pts, false⟩
    else
      ⟨last, acc, pushBounded scan center, pts, false⟩

/-- One evaluation tick of the accumulator in `src/utils/cast.js`
(lines 151-204).  Differences from `tickUtils`: the ring-length guard is
`length > 0` instead of `>= 3`; `turf.polygon` is called outside the `try`,
so its failure escapes the callback (modelled by the `none` result, in which
case neither `lastFootprintPos` nor `scanPositions` is updated); the seeding
assignment also sits outside the `try`. -/
def tickCast (env : GeoEnv) (pts : List Pt) (last : Option Pt)
    (acc : Option Feature) (scan : List Pt) : Option TickResult :=
  if pts.isEmpty then some ⟨last, acc, scan, pts, false⟩
  else
    let center := centroid env pts
    if qualDist center last then
      if 0 < (ringCoords env pts).length then
        match env.polygon (closedRing env pts) with
        | none => none
        | some poly =>
          match acc with
          | none => some ⟨some center, some poly, pushBounded scan center, pts, false⟩
          | some a =>
            match env.union a poly with
            | none => some ⟨some center, some a, pushBounded scan center, pts, true⟩
            | some u =>
              match env.simplify u with
              | none => some ⟨some center, some u, pushBounded scan center, pts, true⟩
              | some s => some ⟨some center, some s, pushBounded scan center, pts, false⟩
      else some ⟨some center, acc, pushBounded scan center, pts, false⟩
    else some ⟨last, acc, pushBounded scan center, pts, false⟩

/-- The mutable session state of one `createIntersectionPolygon` call in
utils.js: the shared `accumulatedGeoJSON` (line 26), the shared
`scanPositions`, and one `lastFootprintPos` per cone (line 83, one closure
variable per entry of `coneEntities.map`). -/
structure SessionState where
  acc : Option Feature
  scan : List Pt
  lasts : List (Option Pt)
deriving DecidableEq, Repr

/-- One evaluation tick of cone `k` against the shared session state:
cone `k`'s own `lastFootprintPos` feeds the displacement gate, and only that
entry is written back; the accumulated footprint and trajectory are shared. -/
def sessionTick (env : GeoEnv) (k : ℕ) (pts : List Pt) (st : SessionState) :
    SessionState :=
  let r := tickUtils env pts (st.lasts.getD k none) st.acc st.scan
  ⟨r.acc, r.scan, st.lasts.set k r.last⟩

/-- The argument form of `createIntersectionPolygon` in utils.js: a single
cone entity or an array of cone entities (`Array.isArray` test, line 16).
Entities are identified by opaque tokens. -/
inductive ConeInput where
  | one (e : ℕ)
  | arr (es : List ℕ)
deriving DecidableEq, Repr

/-- Line 16 of utils.js:
`Array.isArray(coneEntitiesInput) ? coneEntitiesInput : [coneEntitiesInput]`. -/
def normalizeCones : ConeInput → List ℕ
  | ConeInput.one e => [e]
  | ConeInput.arr es => es

/-- The initial session state built by `createIntersectionPolygon`:
`accumulatedGeoJSON = null`, the caller-supplied `scanPositions`, and one
fresh `lastFootprintPos = null` per cone of the normalized input. -/
def initSession (input : ConeInput) (scanInit : List Pt) : SessionState :=
  ⟨none, scanInit, (normalizeCones input).map fun _ => none⟩

/-- A quaternion (`Cesium.Quaternion`); `new Cesium.Quaternion()` defaults
every component to 0. -/
structure Quat where
  qx : ℚ
  qy : ℚ
  qz : ℚ
  qw : ℚ
deriving DecidableEq, Repr

/-- The default-constructed quaternion `new Cesium.Quaternion()`. -/
def zeroQuat : Quat := ⟨0, 0, 0, 0⟩

/-- The `masterOrientation` callback of `createCone` in cesiumDraw.js
(lines 63-109), at one instant: if `isTargetOrientation` holds and both the
position and the target resolve, return the rotation computed from them
(the external Cesium matrix/quaternion construction, passed as `computeQ`);
otherwise fall back to the stored manual orientation. -/
def resolveConeOrientation (computeQ : Pt → Pt → Quat) (useTarget : Bool)
    (pos target : Option Pt) (manual : Quat) : Quat :=
  match useTarget, pos, target with
  | true, some p, some t => computeQ p t
  | _, _, _ => manual

/-- `calculateOrientation` of drawCone.js (lines 43-79): when either input is
missing it returns `new Cesium.Quaternion()`, otherwise the rotation computed
from position and target. -/
def calculateOrientation (computeQ : Pt → Pt → Quat) (pos target : Option Pt) :
    Quat :=
  match pos, target with
  | some p, some t => computeQ p t
  | _, _ => zeroQuat

/-- The orientation resolution of `createTargetingCone` in drawCone.js
(lines 81-97), at one instant: with a target supplied the callback always
delegates to `calculateOrientation`; only without a target is the manual
orientation option used. -/
def resolveTargetingOrientation (computeQ : Pt → Pt → Quat) (hasTarget : Bool)
    (pos target : Option Pt) (manual : Quat) : Quat :=
  if hasTarget then calculateOrientation computeQ pos target else manual

/-- A 3-D vector with exact real components, for the analysis of the
tangent/bitangent frame construction (utils.js lines 146-160); the frame
normalizations use the real square root, so this part of the model lives
over `ℝ` rather than `ℚ`. -/
structure V3 where
  vx : ℝ
  vy : ℝ
  vz : ℝ

/-- The zero vector. -/
def v3zero : V3 := ⟨0, 0, 0⟩

/-- Dot product (`Cesium.Cartesian3.dot`). -/
def dot3 (a b : V3) : ℝ := a.vx * b.vx + a.vy * b.vy + a.vz * b.vz

/-- Cross product (`Cesium.Cartesian3.cross`). -/
def cross3 (a b : V3) : V3 :=
  ⟨a.vy * b.vz - a.vz * b.vy, a.vz * b.vx - a.vx * b.vz, a.vx * b.vy - a.vy * b.vx⟩

/-- Scalar multiple. -/
def smul3 (s : ℝ) (v : V3) : V3 := ⟨s * v.vx, s * v.vy, s * v.vz⟩

/-- Squared Euclidean norm. -/
def normSq3 (v : V3) : ℝ := dot3 v v

/-- `Cesium.Cartesian3.normalize`: divide by the Euclidean norm. -/
noncomputable def normalize3 (v : V3) : V3 :=
  smul3 (1 / Real.sqrt (normSq3 v)) v

/-- The fixed reference vector `new Cesium.Cartesian3(0, 0, 1)` (line 148). -/
def upZ : V3 := ⟨0, 0, 1⟩

/-- The fallback reference `new Cesium.Cartesian3(1, 0, 0)` (line 152). -/
def unitX : V3 := ⟨1, 0, 0⟩

open Classical in
/-- The reference vector actually used for the tangent (lines 151-155):
the fallback x-axis when the axis is nearly parallel to the z-reference
(`Math.abs(dot(axis, up)) > 0.99`), the z-reference otherwise. -/
noncomputable def refUp (axis : V3) : V3 :=
  if 0.99 < |dot3 axis upZ| then unitX else upZ

/-- `tangent = normalize(cross(axis, up_or_fallback))` (lines 152-156). -/
noncomputable def tangentOf (axis : V3) : V3 :=
  normalize3 (cross3 axis (refUp axis))

/-- `bitangent = normalize(cross(axis, tangent))` (lines 158-160). -/
noncomputable def bitangentOf (axis : V3) : V3 :=
  normalize3 (cross3 axis (tangentOf axis))

/-- A baseline environment for concrete evaluations: identity conversions,
a ray intersector that always reports distance 0, and total turf operations. -/
def envId : GeoEnv where
  toRadians := id
  toDegrees := id
  cos := fun _ => 1
  sin := fun _ => 0
  normalizeDir := id
  rayEllipsoid := fun _ _ => some 0
  toCartographic := fun p => (p.x, p.y)
  fromRadians := fun lon lat h => ⟨lon, lat, h⟩
  polygon := fun _ => some 7
  union := fun a b => some (a + b)
  simplify := fun f => some f

/-- Environment whose `simplify` throws (and `union` succeeds). -/
def envSimplifyFails : GeoEnv :=
  { envId with union := fun _ _ => some 8, simplify := fun _ => none }

/-- Environment whose `union` throws. -/
def envUnionFails : GeoEnv :=
  { envId with union := fun _ _ => none }

/-- Environment whose `polygon` construction succeeds with a fixed token. -/
def envPoly42 : GeoEnv :=
  { envId with polygon := fun _ => some 42 }

/-- A three-point footprint fixture. -/
def ptsThree : List Pt := [⟨1, 0, 0⟩, ⟨2, 0, 0⟩, ⟨3, 0, 0⟩]

/-- A one-point footprint fixture (fewer than three accepted points). -/
def ptOne : List Pt := [⟨1, 2, 0⟩]

/-- The all-zero point. -/
def ptZero : Pt := ⟨0, 0, 0⟩

lemma ringCoords_length (env : GeoEnv) (pts : List Pt) :
    (ringCoords env pts).length = pts.length := by
  simp [ringCoords]

lemma distSq_self (p : Pt) : distSq p p = 0 := by
  simp [distSq]

lemma tickUtils_nil (env : GeoEnv) (last : Option Pt) (acc : Option Feature)
    (scan : List Pt) : tickUtils env [] last acc scan = ⟨last, acc, scan, [], false⟩ := rfl

lemma tickUtils_gateFalse (env : GeoEnv) (pts : List Pt) (last : Option Pt)
    (acc : Option Feature) (scan : List Pt) (hne : pts ≠ [])
    (hg : qualDist (centroid env pts) last = false) :
    tickUtils env pts last acc scan =
      ⟨last, acc, pushBounded scan (centroid env pts), pts, false⟩ := by
  simp only [tickUtils, List.isEmpty_eq_false.mpr hne, hg]
  rw [if_neg Bool.false_ne_true, if_neg Bool.false_ne_true]

lemma tickUtils_small (env : GeoEnv) (pts : List Pt) (last : Option Pt)
    (acc : Option Feature) (scan : List Pt) (hne : pts ≠ [])
    (hg : qualDist (centroid env pts) last = true) (hlen : pts.length < 3) :
    tickUtils env pts last acc scan =
      ⟨some (centroid env pts), acc, pushBounded scan (centroid env pts), pts, false⟩ := by
  simp only [tickUtils, List.isEmpty_eq_false.mpr hne, hg]
  rw [if_neg Bool.false_ne_true, if_pos trivial, if_neg (by rw [ringCoords_length]; omega)]

lemma tickUtils_big (env : GeoEnv) (pts : List Pt) (last : Option Pt)
    (acc : Option Feature) (scan : List Pt) (hne : pts ≠ [])
    (hg : qualDist (centroid env pts) last = true) (hlen : 3 ≤ pts.length) :
    tickUtils env pts last acc scan =
      ⟨some (centroid env pts), (tryAccumulate env (closedRing env pts) acc).1,
        pushBounded scan (centroid env pts), pts,
        (tryAccumulate env (closedRing env pts) acc).2⟩ := by
  simp only [tickUtils, List.isEmpty_eq_false.mpr hne, hg]
  rw [if_neg Bool.false_ne_true, if_pos trivial, if_pos (by rw [ringCoords_length]; omega)]

lemma tickUtils_scan_eq (env : GeoEnv) (pts : List Pt) (last : Option Pt)
    (acc : Option Feature) (scan : List Pt) (hne : pts ≠ []) :
    (tickUtils env pts last acc scan).scan = pushBounded scan (centroid env pts) := by
  simp only [tickUtils, List.isEmpty_eq_false.mpr hne]
  rw [if_neg Bool.false_ne_true]
  split
  · split <;> rfl
  · rfl

/-- C1 counterexample: a SEEDED tick of the utils.js accumulator in which the
union succeeds and the simplification throws.  The Accumulated Footprint ends
at the unsimplified union result (token 8), not at its pre-tick value
(token 5), and the Last-Recorded-Centroid is updated from (1000,0,0) to the
new centroid (2,0,0) even though the tick failed; only the warning part of
the claim holds. -/
theorem C1_counterexample :
    (tickUtils envSimplifyFails ptsThree (some ⟨1000, 0, 0⟩) (some 5) []).acc = some 8 ∧
    (some 8 : Option Feature) ≠ some 5 ∧
    (tickUtils envSimplifyFails ptsThree (some ⟨1000, 0, 0⟩) (some 5) []).last = some ⟨2, 0, 0⟩ ∧
    (some (⟨2, 0, 0⟩ : Pt) : Option Pt) ≠ some ⟨1000, 0, 0⟩ ∧
    (tickUtils envSimplifyFails ptsThree (some ⟨1000, 0, 0⟩) (some 5) []).warned = true := by
  have hgate : qualDist (centroid envSimplifyFails ptsThree) (some ⟨1000, 0, 0⟩) = true := by
    simp only [qualDist, decide_eq_true_eq, distSq, centroid, envSimplifyFails, envId, ptsThree,
      List.map, List.sum_cons, List.sum_nil, List.length]
    norm_num
  have hcen : centroid envSimplifyFails ptsThree = ⟨2, 0, 0⟩ := by
    simp only [centroid, envSimplifyFails, envId, ptsThree, List.map, List.sum_cons,
      List.sum_nil, List.length]
    norm_num
  rw [tickUtils_big envSimplifyFails ptsThree (some ⟨1000, 0, 0⟩) (some 5) []
    (by simp [ptsThree]) hgate (by simp [ptsThree])]
  refine ⟨?_, by decide, by rw [hcen], ?_, ?_⟩
  · rfl
  · simp only [ne_eq, Option.some.injEq, Pt.mk.injEq, not_and]
    norm_num
  · rfl

/-- C1 amended: on a SEEDED tick whose footprint qualifies (nonempty,
displacement gate passed, at least 3 points) and whose polygon construction
succeeds: if the union throws, the Accumulated Footprint is unchanged and a
warning is logged; if the union succeeds and the simplification throws, the
Accumulated Footprint is left at the UNSIMPLIFIED union result and a warning
is logged; in both cases no exception escapes (`tickUtils` is total by
construction) but the Last-Recorded-Centroid is nevertheless updated to the
new centroid (and the centroid still enters the trajectory). -/
theorem C1_amended (env : GeoEnv) (pts : List Pt) (last : Option Pt)
    (a poly : Feature) (scan : List Pt)
    (hne : pts ≠ []) (hg : qualDist (centroid env pts) last = true)
    (hlen : 3 ≤ pts.length)
    (hpoly : env.polygon (closedRing env pts) = some poly) :
    (env.union a poly = none →
      (tickUtils env pts last (some a) scan).acc = some a ∧
      (tickUtils env pts last (some a) scan).warned = true) ∧
    (∀ u, env.union a poly = some u → env.simplify u = none →
      (tickUtils env pts last (some a) scan).acc = some u ∧
      (tickUtils env pts last (some a) scan).warned = true) ∧
    (tickUtils env pts last (some a) scan).last = some (centroid env pts) ∧
    (tickUtils env pts last (some a) scan).scan = pushBounded scan (centroid env pts) := by
  rw [tickUtils_big env pts last (some a) scan hne hg hlen]
  refine ⟨?_, ?_, rfl, rfl⟩
  · intro hu
    simp [tryAccumulate, hpoly, hu]
  · intro u hu hs
    simp [tryAccumulate, hpoly, hu, hs]

/-- C1 witness: concrete run of the amended claim with a throwing union:
the Accumulated Footprint keeps its pre-tick seed value while a warning is
logged and the Last-Recorded-Centroid advances. -/
theorem C1_witness :
    envUnionFails.union 5 7 = none ∧
    (tickUtils envUnionFails ptsThree none (some 5) []).acc = some 5 ∧
    (tickUtils envUnionFails ptsThree none (some 5) []).warned = true ∧
    (tickUtils envUnionFails ptsThree none (some 5) []).last =
      some (centroid envUnionFails ptsThree) := by
  have h := C1_amended envUnionFails ptsThree none 5 7 []
    (by simp [ptsThree]) rfl (by simp [ptsThree]) rfl
  exact ⟨rfl, (h.1 rfl).1, (h.1 rfl).2, h.2.2.1⟩

/-- C2 counterexample: a tick whose Instantaneous Footprint has a single
accepted point (hence not a qualifying update) still appends a centroid to
the Trajectory, refuting the "only if" direction of the claim. -/
theorem C2_counterexample :
    (tickUtils envId ptOne none none []).scan = [centroid envId ptOne] ∧
    ptOne.length < 3 := by
  rw [tickUtils_small envId ptOne none none [] (by simp [ptOne]) rfl (by simp [ptOne])]
  exact ⟨by simp [pushBounded], by simp [ptOne]⟩

/-- C2 amended: a centroid is appended to the Trajectory on every tick whose
Instantaneous Footprint has at least one accepted point, regardless of the
3-point and 100 m qualification gates; on an empty footprint the Trajectory
is unchanged; after an append, when the length exceeds 200 the oldest entry
is evicted (FIFO), so the length never exceeds 200. -/
theorem C2_amended (env : GeoEnv) (pts : List Pt) (last : Option Pt)
    (acc : Option Feature) (scan : List Pt) :
    (pts = [] → (tickUtils env pts last acc scan).scan = scan) ∧
    (pts ≠ [] → (tickUtils env pts last acc scan).scan =
      pushBounded scan (centroid env pts)) ∧
    (pts ≠ [] → scan.length < 200 →
      (tickUtils env pts last acc scan).scan = scan ++ [centroid env pts]) ∧
    (pts ≠ [] → scan.length = 200 →
      (tickUtils env pts last acc scan).scan = scan.tail ++ [centroid env pts]) ∧
    (scan.length ≤ 200 → (tickUtils env pts last acc scan).scan.length ≤ 200) := by
  refine ⟨?_, ?_, ?_, ?_, ?_⟩
  · rintro rfl
    rfl
  · intro hne
    exact tickUtils_scan_eq env pts last acc scan hne
  · intro hne hlt
    rw [tickUtils_scan_eq env pts last acc scan hne, pushBounded, if_neg]
    simp
    omega
  · intro hne h200
    rw [tickUtils_scan_eq env pts last acc scan hne, pushBounded, if_pos]
    · exact List.tail_append_of_ne_nil (by rw [← List.length_pos]; omega)
    · simp
      omega
  · intro hb
    rcases eq_or_ne pts [] with rfl | hne
    · rw [tickUtils_nil]
      exact hb
    · rw [tickUtils_scan_eq env pts last acc scan hne, pushBounded]
      split
      next h =>
        simp only [List.length_tail, List.length_append, List.length_singleton] at h ⊢
        omega
      next h =>
        simp only [List.length_append, List.length_singleton] at h ⊢
        omega

/-- C2 witness: concrete one-point tick appending the centroid to an empty
trajectory. -/
theorem C2_witness :
    ptOne ≠ [] ∧ ([] : List Pt).length < 200 ∧
    (tickUtils envId ptOne none none []).scan = [] ++ [centroid envId ptOne] :=
  ⟨by simp [ptOne], by simp,
    (C2_amended envId ptOne none none []).2.2.1 (by simp [ptOne]) (by simp)⟩

/-- C3 counterexample: in the `src/utils/cast.js` variant (whose guard is
`coordinates.length > 0`, lines 178-195 cited by the claim), a tick whose
Instantaneous Footprint has a single accepted point still has a polygon
constructed from it, and that polygon is folded into (seeds) the Accumulated
Footprint, contradicting "no polygon is constructed from it and it is never
folded into the Accumulated Footprint". -/
theorem C3_counterexample :
    (tickCast envPoly42 ptOne none none []).map TickResult.acc = some (some 42) ∧
    ptOne.length < 3 := by
  constructor
  · have hne : ptOne.isEmpty = false := by simp [ptOne]
    simp only [tickCast, hne]
    rw [if_neg Bool.false_ne_true,
      if_pos (show qualDist (centroid envPoly42 ptOne) none = true from rfl),
      if_pos (show 0 < (ringCoords envPoly42 ptOne).length by simp [ringCoords_length, ptOne])]
    simp [envPoly42, envId]
  · simp [ptOne]

/-- C3 amended: in `src/lib/cesium/utils.js` the claim holds as stated: on a
tick with fewer than 3 accepted points the Accumulated Footprint is
unchanged, the (possibly short) ring is still returned for rendering, and
the turf polygon operations are never consulted (the tick result is
independent of the `polygon`/`union`/`simplify` fields of the environment).
In `src/utils/cast.js`, however, the guard is `length > 0`: a 1- or 2-point
ring still has a polygon constructed from it, which can seed or be unioned
into the Accumulated Footprint (see the counterexample). -/
theorem C3_amended (env : GeoEnv) (pts : List Pt) (last : Option Pt)
    (acc : Option Feature) (scan : List Pt) (hlen : pts.length < 3) :
    (tickUtils env pts last acc scan).acc = acc ∧
    (tickUtils env pts last acc scan).ring = pts ∧
    (tickUtils env pts last acc scan).warned = false ∧
    (∀ env2 : GeoEnv, env2.toCartographic = env.toCartographic →
      env2.fromRadians = env.fromRadians →
      tickUtils env2 pts last acc scan = tickUtils env pts last acc scan) := by
  have hcen : ∀ env2 : GeoEnv, env2.toCartographic = env.toCartographic →
      env2.fromRadians = env.fromRadians → centroid env2 pts = centroid env pts := by
    intro env2 h1 h2
    simp [centroid, h1, h2]
  rcases eq_or_ne pts [] with rfl | hne
  · exact ⟨rfl, rfl, rfl, fun env2 h1 h2 => rfl⟩
  · cases hq : qualDist (centroid env pts) last
    · rw [tickUtils_gateFalse env pts last acc scan hne hq]
      refine ⟨rfl, rfl, rfl, ?_⟩
      intro env2 h1 h2
      rw [tickUtils_gateFalse env2 pts last acc scan hne (by rw [hcen env2 h1 h2]; exact hq),
        hcen env2 h1 h2]
    · rw [tickUtils_small env pts last acc scan hne hq hlen]
      refine ⟨rfl, rfl, rfl, ?_⟩
      intro env2 h1 h2
      rw [tickUtils_small env2 pts last acc scan hne (by rw [hcen env2 h1 h2]; exact hq) hlen,
        hcen env2 h1 h2]

/-- C3 witness: concrete one-point tick of the utils.js accumulator: the
Accumulated Footprint stays `none` and the one-point ring is returned. -/
theorem C3_witness :
    ptOne.length < 3 ∧
    (tickUtils envId ptOne none (none : Option Feature) []).acc = none ∧
    (tickUtils envId ptOne none (none : Option Feature) []).ring = ptOne :=
  ⟨by simp [ptOne], (C3_amended envId ptOne none none [] (by simp [ptOne])).1,
    (C3_amended envId ptOne none none [] (by simp [ptOne])).2.1⟩

/-- C4: throttle correctness (utils.js lines 217-252).  A footprint is folded
into the Accumulated Footprint only when its centroid is farther than 100 m
from the cone's Last-Recorded-Centroid: (i) if the first of two consecutive
footprints passes the gate (from state `last0`), the second, whose centroid
is within 100 m (squared-distance at most 100^2) of the first's, leaves both
the Accumulated Footprint and the Last-Recorded-Centroid unchanged; (ii) in
general, a tick whose centroid is within 100 m of the recorded centroid
changes neither. -/
theorem C4_throttle (env : GeoEnv) (pts1 pts2 : List Pt) (last0 : Option Pt)
    (acc0 : Option Feature) (scan0 : List Pt)
    (h1 : pts1 ≠ []) (hq : qualDist (centroid env pts1) last0 = true)
    (hnear : distSq (centroid env pts2) (centroid env pts1) ≤ 100 * 100) :
    (tickUtils env pts2 (tickUtils env pts1 last0 acc0 scan0).last
        (tickUtils env pts1 last0 acc0 scan0).acc
        (tickUtils env pts1 last0 acc0 scan0).scan).acc
      = (tickUtils env pts1 last0 acc0 scan0).acc ∧
    (tickUtils env pts2 (tickUtils env pts1 last0 acc0 scan0).last
        (tickUtils env pts1 last0 acc0 scan0).acc
        (tickUtils env pts1 last0 acc0 scan0).scan).last
      = some (centroid env pts1) ∧
    (∀ pts p acc scan, distSq (centroid env pts) p ≤ 100 * 100 →
      (tickUtils env pts (some p) acc scan).acc = acc ∧
      (tickUtils env pts (some p) acc scan).last = some p) := by
  have general : ∀ pts p acc scan, distSq (centroid env pts) p ≤ 100 * 100 →
      (tickUtils env pts (some p) acc scan).acc = acc ∧
      (tickUtils env pts (some p) acc scan).last = some p := by
    intro pts p acc scan hle
    have hg : qualDist (centroid env pts) (some p) = false := by
      simp only [qualDist, decide_eq_false_iff_not, not_lt]
      exact hle
    rcases eq_or_ne pts [] with rfl | hne
    · exact ⟨rfl, rfl⟩
    · rw [tickUtils_gateFalse env pts (some p) acc scan hne hg]
      exact ⟨rfl, rfl⟩
  have hlast1 : (tickUtils env pts1 last0 acc0 scan0).last = some (centroid env pts1) := by
    rcases lt_or_le pts1.length 3 with hl | hl
    · rw [tickUtils_small env pts1 last0 acc0 scan0 h1 hq hl]
    · rw [tickUtils_big env pts1 last0 acc0 scan0 h1 hq hl]
  rw [hlast1]
  exact ⟨(general pts2 (centroid env pts1) _ _ hnear).1,
    (general pts2 (centroid env pts1) _ _ hnear).2, general⟩

/-- C4 witness: two consecutive identical three-point footprints.  The first
tick (no recorded centroid yet) folds in; the second, at zero displacement,
leaves the Accumulated Footprint and the Last-Recorded-Centroid untouched. -/
theorem C4_witness :
    ptsThree ≠ [] ∧
    qualDist (centroid envId ptsThree) none = true ∧
    distSq (centroid envId ptsThree) (centroid envId ptsThree) ≤ 100 * 100 ∧
    (tickUtils envId ptsThree (tickUtils envId ptsThree none none []).last
        (tickUtils envId ptsThree none none []).acc
        (tickUtils envId ptsThree none none []).scan).acc
      = (tickUtils envId ptsThree none none []).acc ∧
    (tickUtils envId ptsThree (tickUtils envId ptsThree none none []).last
        (tickUtils envId ptsThree none none []).acc
        (tickUtils envId ptsThree none none []).scan).last
      = some (centroid envId ptsThree) := by
  have hd : distSq (centroid envId ptsThree) (centroid envId ptsThree) ≤ 100 * 100 := by
    rw [distSq_self]
    norm_num
  have h := C4_throttle envId ptsThree ptsThree none none []
    (by simp [ptsThree]) rfl hd
  exact ⟨by simp [ptsThree], rfl, hd, h.1, h.2.1⟩

/-- C5: when several cones feed one `createIntersectionPolygon` session, the
Accumulated Footprint is a single shared value updated by whichever cone
ticks (utils.js line 26), while `lastFootprintPos` is kept per cone
(line 83): a tick of cone `k` (i) leaves every other cone's recorded
centroid untouched, (ii) produces the same shared accumulated footprint,
trajectory and own recorded centroid regardless of the other cones'
recorded centroids (two states agreeing on cone `k`'s entry and the shared
fields evolve identically), and (iii) updates the shared accumulated value
exactly as the single-cone tick does from cone `k`'s own gate state. -/
theorem C5_shared_acc_per_cone_gate (env : GeoEnv) (k j : ℕ) (pts : List Pt)
    (st st2 : SessionState) (hj : j ≠ k)
    (hlast : st.lasts.getD k none = st2.lasts.getD k none)
    (hacc : st.acc = st2.acc) (hscan : st.scan = st2.scan)
    (hk : k < st.lasts.length) (hk2 : k < st2.lasts.length) :
    (sessionTick env k pts st).lasts.getD j none = st.lasts.getD j none ∧
    (sessionTick env k pts st).acc = (sessionTick env k pts st2).acc ∧
    (sessionTick env k pts st).scan = (sessionTick env k pts st2).scan ∧
    (sessionTick env k pts st).lasts.getD k none
      = (sessionTick env k pts st2).lasts.getD k none ∧
    (sessionTick env k pts st).acc
      = (tickUtils env pts (st.lasts.getD k none) st.acc st.scan).acc := by
  refine ⟨?_, ?_, ?_, ?_, rfl⟩
  · simp only [sessionTick]
    simp [List.getD, List.getElem?_set_ne (Ne.symm hj)]
  · simp only [sessionTick, hlast, hacc, hscan]
  · simp only [sessionTick, hlast, hacc, hscan]
  · simp only [sessionTick]
    rw [hlast, hacc, hscan]
    simp [List.getD, List.getElem?_set_self, hk, hk2]

/-- C5 witness: two sessions with two cones each, agreeing on cone 0's state
and the shared fields but differing on cone 1's recorded centroid, evolve
identically under a tick of cone 0, and cone 1's entry is untouched. -/
theorem C5_witness :
    (1 : ℕ) ≠ 0 ∧
    (sessionTick envId 0 ptOne ⟨none, [], [none, none]⟩).lasts.getD 1 none = none ∧
    (sessionTick envId 0 ptOne ⟨none, [], [none, none]⟩).acc
      = (sessionTick envId 0 ptOne ⟨none, [], [none, some ptZero]⟩).acc ∧
    (sessionTick envId 0 ptOne ⟨none, [], [none, none]⟩).scan
      = (sessionTick envId 0 ptOne ⟨none, [], [none, some ptZero]⟩).scan ∧
    (sessionTick envId 0 ptOne ⟨none, [], [none, none]⟩).lasts.getD 0 none
      = (sessionTick envId 0 ptOne ⟨none, [], [none, some ptZero]⟩).lasts.getD 0 none := by
  have h := C5_shared_acc_per_cone_gate envId 0 1 ptOne
    ⟨none, [], [none, none]⟩ ⟨none, [], [none, some ptZero]⟩
    (by decide) rfl rfl rfl (by decide) (by decide)
  exact ⟨by decide, h.1, h.2.1, h.2.2.1, h.2.2.2.1⟩

/-- C6: region containment (utils.js lines 189-198).  Every point accepted
into the Instantaneous Footprint passed the chord-distance filter: the
region radius is non-negative and the squared chord distance from the point
to the Target Region center is at most the squared radius (exactly the
float test `distance(point, groundPos) <= groundCircleRadius`). -/
theorem C6_region_containment (env : GeoEnv) (apexPos axis tangent bitangent : Pt)
    (tanHalfAngle : ℚ) (groundPos : Pt) (radius : ℚ) (p : Pt)
    (hp : p ∈ instantFootprint env apexPos axis tangent bitangent tanHalfAngle
      groundPos radius) :
    0 ≤ radius ∧ distSq p groundPos ≤ radius * radius := by
  simp only [instantFootprint, List.mem_filterMap] at hp
  obtain ⟨i, _, hi⟩ := hp
  simp only [samplePoint] at hi
  revert hi
  generalize env.rayEllipsoid apexPos
    (env.normalizeDir (addPt axis (smulPt tanHalfAngle
      (addPt (smulPt (env.cos (env.toRadians ((i : ℚ) * 5))) tangent)
        (smulPt (env.sin (env.toRadians ((i : ℚ) * 5))) bitangent))))) = o
  cases o with
  | none => intro hi; exact absurd hi (by simp)
  | some d =>
    intro hi
    rcases ite_eq_iff.mp hi with ⟨hc, heq⟩ | ⟨_, heq⟩
    · obtain rfl := Option.some.inj heq
      exact hc
    · exact absurd heq (by simp)

/-- C6 witness: a degenerate all-zero configuration in which every ray
reports a hit at distance 0; the origin is accepted into the footprint and
lies within the radius-1 region. -/
theorem C6_witness :
    ptZero ∈ instantFootprint envId ptZero ptZero ptZero ptZero 0 ptZero 1 ∧
    (0 ≤ (1 : ℚ) ∧ distSq ptZero ptZero ≤ 1 * 1) := by
  have hsample : samplePoint envId ptZero ptZero ptZero ptZero 0 ptZero 1 0 = some ptZero := by
    simp [samplePoint, envId, ptZero, smulPt, addPt, distSq]
  have hm : ptZero ∈ instantFootprint envId ptZero ptZero ptZero ptZero 0 ptZero 1 :=
    List.mem_filterMap.mpr ⟨0, by simp, hsample⟩
  exact ⟨hm, C6_region_containment envId ptZero ptZero ptZero ptZero 0 ptZero 1 ptZero hm⟩

/-- C7: ray-count invariant (utils.js lines 168-199).  The Instantaneous
Footprint is exactly the filtered map of the 72 angular samples — at most
one accepted point per sample index — so it never has more than 72 points. -/
theorem C7_ray_count (env : GeoEnv) (apexPos axis tangent bitangent : Pt)
    (tanHalfAngle : ℚ) (groundPos : Pt) (radius : ℚ) :
    (instantFootprint env apexPos axis tangent bitangent tanHalfAngle groundPos
      radius).length ≤ 72 ∧
    instantFootprint env apexPos axis tangent bitangent tanHalfAngle groundPos radius
      = (List.range 72).filterMap
          (samplePoint env apexPos axis tangent bitangent tanHalfAngle groundPos radius) := by
  refine ⟨?_, rfl⟩
  calc (instantFootprint env apexPos axis tangent bitangent tanHalfAngle groundPos
      radius).length
      ≤ (List.range 72).length := List.length_filterMap_le _ _
    _ = 72 := by simp

/-- C8 counterexample: in `createTargetingCone` (drawCone.js), when a target
is supplied but the position does not resolve at time t, the resolved
orientation is the default-constructed quaternion `new Cesium.Quaternion()`
(all components 0), NOT the explicitly set manual orientation — refuting
"the explicitly set (manual) orientation is returned instead" for this
entry point. -/
theorem C8_counterexample :
    resolveTargetingOrientation (fun _ _ => zeroQuat) true none (some ptZero)
      ⟨0, 0, 0, 1⟩ = zeroQuat ∧
    zeroQuat ≠ (⟨0, 0, 0, 1⟩ : Quat) := by
  constructor
  · rfl
  · simp only [ne_eq, zeroQuat, Quat.mk.injEq, not_and]
    norm_num

/-- C8 amended: in `createCone` (cesiumDraw.js lines 63-109) the claim holds
exactly: with target-orientation mode enabled and both points resolved the
computed rotation overrides the manual orientation, and in every other case
(mode disabled, or either point unresolved) the manual orientation is
returned.  In `createTargetingCone` (drawCone.js lines 81-97) the manual
orientation is used only when no target is supplied; with a target supplied
and both points resolved the computed rotation is used, but with either
point unresolved the result is the zero quaternion `new Cesium.Quaternion()`
rather than the manual orientation. -/
theorem C8_amended (computeQ : Pt → Pt → Quat) (p t : Pt) (pos target : Option Pt)
    (manual : Quat) :
    resolveConeOrientation computeQ true (some p) (some t) manual = computeQ p t ∧
    resolveConeOrientation computeQ false pos target manual = manual ∧
    resolveConeOrientation computeQ true none target manual = manual ∧
    resolveConeOrientation computeQ true pos none manual = manual ∧
    resolveTargetingOrientation computeQ false pos target manual = manual ∧
    resolveTargetingOrientation computeQ true (some p) (some t) manual = computeQ p t ∧
    resolveTargetingOrientation computeQ true none target manual = zeroQuat ∧
    resolveTargetingOrientation computeQ true pos none manual = zeroQuat := by
  refine ⟨rfl, ?_, ?_, ?_, rfl, rfl, ?_, ?_⟩
  · cases pos <;> cases target <;> rfl
  · cases target <;> rfl
  · cases pos <;> rfl
  · cases target <;> rfl
  · cases pos <;> rfl

/-- C10: `createIntersectionPolygon` normalizes its cone argument with
`Array.isArray(input) ? input : [input]` (utils.js line 16); a single entity
and the one-element array of that entity normalize to the same cone list,
build the same initial session state, and therefore evolve identically under
every tick. -/
theorem C10_single_vs_array (e : ℕ) (scanInit : List Pt) :
    normalizeCones (ConeInput.one e) = normalizeCones (ConeInput.arr [e]) ∧
    initSession (ConeInput.one e) scanInit = initSession (ConeInput.arr [e]) scanInit ∧
    ∀ (env : GeoEnv) (k : ℕ) (pts : List Pt),
      sessionTick env k pts (initSession (ConeInput.one e) scanInit)
        = sessionTick env k pts (initSession (ConeInput.arr [e]) scanInit) :=
  ⟨rfl, rfl, fun _ _ _ => rfl⟩

lemma dot3_comm (a b : V3) : dot3 a b = dot3 b a := by
  simp only [dot3]
  ring

lemma dot3_cross_left (a b : V3) : dot3 (cross3 a b) a = 0 := by
  simp only [dot3, cross3]
  ring

lemma dot3_cross_right (a b : V3) : dot3 (cross3 a b) b = 0 := by
  simp only [dot3, cross3]
  ring

lemma dot3_smul_left (s : ℝ) (v w : V3) : dot3 (smul3 s v) w = s * dot3 v w := by
  simp only [dot3, smul3]
  ring

lemma normSq3_nonneg (v : V3) : 0 ≤ normSq3 v := by
  simp only [normSq3, dot3]
  nlinarith [mul_self_nonneg v.vx, mul_self_nonneg v.vy, mul_self_nonneg v.vz]

lemma normSq3_smul (s : ℝ) (v : V3) : normSq3 (smul3 s v) = s ^ 2 * normSq3 v := by
  simp only [normSq3, dot3, smul3]
  ring

lemma normSq3_eq_zero_iff (v : V3) : normSq3 v = 0 ↔ v = v3zero := by
  obtain ⟨x, y, z⟩ := v
  simp only [normSq3, dot3, v3zero, V3.mk.injEq]
  constructor
  · intro h
    have hx : x * x = 0 := by nlinarith [mul_self_nonneg y, mul_self_nonneg z]
    have hy : y * y = 0 := by nlinarith [mul_self_nonneg x, mul_self_nonneg z]
    have hz : z * z = 0 := by nlinarith [mul_self_nonneg x, mul_self_nonneg y]
    exact ⟨mul_self_eq_zero.mp hx, mul_self_eq_zero.mp hy, mul_self_eq_zero.mp hz⟩
  · rintro ⟨rfl, rfl, rfl⟩
    ring

lemma normSq3_normalize3 (v : V3) (h : normSq3 v ≠ 0) :
    normSq3 (normalize3 v) = 1 := by
  rw [normalize3, normSq3_smul, div_pow, one_pow, Real.sq_sqrt (normSq3_nonneg v)]
  exact one_div_mul_cancel h

lemma dot3_normalize3_left (v w : V3) :
    dot3 (normalize3 v) w = (1 / Real.sqrt (normSq3 v)) * dot3 v w := by
  rw [normalize3, dot3_smul_left]

lemma normSq3_cross3 (a b : V3) :
    normSq3 (cross3 a b) = normSq3 a * normSq3 b - (dot3 a b) ^ 2 := by
  simp only [normSq3, dot3, cross3]
  ring

/-- C9: orthonormality of the local sampling frame (utils.js lines 146-160).
For a unit axis whose effective reference vector (the z-reference or,
past the 0.99 parallelism threshold, the x-fallback) is not parallel to it
(nonzero cross product), the frame tangent = normalize(axis x reference),
bitangent = normalize(axis x tangent) satisfies: both have unit (squared)
length, and tangent.axis, bitangent.axis and bitangent.tangent all vanish. -/
theorem C9_frame_orthonormal (axis : V3) (hunit : normSq3 axis = 1)
    (href : cross3 axis (refUp axis) ≠ v3zero) :
    normSq3 (tangentOf axis) = 1 ∧ normSq3 (bitangentOf axis) = 1 ∧
    dot3 (tangentOf axis) axis = 0 ∧ dot3 (bitangentOf axis) axis = 0 ∧
    dot3 (bitangentOf axis) (tangentOf axis) = 0 := by
  have hc1 : normSq3 (cross3 axis (refUp axis)) ≠ 0 :=
    fun h => href ((normSq3_eq_zero_iff _).mp h)
  have htan1 : normSq3 (tangentOf axis) = 1 := normSq3_normalize3 _ hc1
  have htax : dot3 (tangentOf axis) axis = 0 := by
    rw [tangentOf, dot3_normalize3_left, dot3_cross_left, mul_zero]
  have haxt : dot3 axis (tangentOf axis) = 0 := by
    rw [dot3_comm]
    exact htax
  have hc2 : normSq3 (cross3 axis (tangentOf axis)) = 1 := by
    rw [normSq3_cross3, hunit, htan1, haxt]
    norm_num
  have hc2ne : normSq3 (cross3 axis (tangentOf axis)) ≠ 0 := by
    rw [hc2]
    norm_num
  refine ⟨htan1, normSq3_normalize3 _ hc2ne, htax, ?_, ?_⟩
  · rw [bitangentOf, dot3_normalize3_left, dot3_cross_left, mul_zero]
  · rw [bitangentOf, dot3_normalize3_left, dot3_cross_right, mul_zero]

/-- C9 witness: the unit x-axis.  Its dot product with the z-reference is 0,
so no fallback fires and the cross product is the nonzero (0,-1,0); the
frame at this axis is orthonormal by the theorem. -/
theorem C9_witness :
    normSq3 ⟨1, 0, 0⟩ = 1 ∧ cross3 ⟨1, 0, 0⟩ (refUp ⟨1, 0, 0⟩) ≠ v3zero ∧
    (normSq3 (tangentOf ⟨1, 0, 0⟩) = 1 ∧ normSq3 (bitangentOf ⟨1, 0, 0⟩) = 1 ∧
      dot3 (tangentOf ⟨1, 0, 0⟩) ⟨1, 0, 0⟩ = 0 ∧
      dot3 (bitangentOf ⟨1, 0, 0⟩) ⟨1, 0, 0⟩ = 0 ∧
      dot3 (bitangentOf ⟨1, 0, 0⟩) (tangentOf ⟨1, 0, 0⟩) = 0) := by
  have h1 : normSq3 ⟨1, 0, 0⟩ = 1 := by
    simp [normSq3, dot3]
  have href : refUp ⟨1, 0, 0⟩ = upZ := by
    simp only [refUp]
    rw [if_neg]
    norm_num [dot3, upZ]
  have h2 : cross3 ⟨1, 0, 0⟩ (refUp ⟨1, 0, 0⟩) ≠ v3zero := by
    rw [href]
    simp only [ne_eq, cross3, upZ, v3zero, V3.mk.injEq, not_and]
    norm_num
  exact ⟨h1, h2, C9_frame_orthonormal ⟨1, 0, 0⟩ h1 h2⟩
